import Mathlib

/-!
Verification of the employment dashboard (`src/streamlit_app.py`) against its
natural-language specification.  The Python source is shallowly embedded:
pure arithmetic becomes functions on `ℤ`/`ℚ`, the memo file becomes explicit
state passing over `Option (List MemoRecord)`, and network / pandas effects
become explicit environment values.
-/

/- ### Scoring engine (streamlit_app.py lines 163–178)

The quiz has three axes (학업 활동 / 대외 활동 / 진로 탐색), each a binary
radio choice.  The first constructor of each axis is the "green" option, the
second the traditional one. -/

/-- 학업 활동: '탄소 배출량 분석 AI 모델링' vs '전통 내연기관 효율성 연구'. -/
inductive EduChoice
  | carbonAI
  | combustion
deriving DecidableEq, Repr

/-- 대외 활동: '신재생에너지 정책 토론 동아리' vs '고전 문학 비평 동아리'. -/
inductive ActivityChoice
  | renewableDebate
  | classicsClub
deriving DecidableEq, Repr

/-- 진로 탐색: '에너지 IT 스타트업' vs '안정적인 정유회사'. -/
inductive CareerChoice
  | energyStartup
  | oilCompany
deriving DecidableEq, Repr

/-- One full combination of the three quiz choices. -/
structure QuizChoice where
  edu : EduChoice
  activity : ActivityChoice
  career : CareerChoice
deriving DecidableEq, Repr

/-- `score_edu` branch of lines 164–167. -/
def score_edu : EduChoice → ℤ
  | EduChoice.carbonAI => 25
  | EduChoice.combustion => 5

/-- `co2_edu` branch of lines 164–167. -/
def co2_edu : EduChoice → ℤ
  | EduChoice.carbonAI => -15
  | EduChoice.combustion => 5

/-- `score_activity` branch of lines 168–171. -/
def score_activity : ActivityChoice → ℤ
  | ActivityChoice.renewableDebate => 15
  | ActivityChoice.classicsClub => 5

/-- `co2_activity` branch of lines 168–171. -/
def co2_activity : ActivityChoice → ℤ
  | ActivityChoice.renewableDebate => -10
  | ActivityChoice.classicsClub => 0

/-- `score_career` branch of lines 172–175. -/
def score_career : CareerChoice → ℤ
  | CareerChoice.energyStartup => 20
  | CareerChoice.oilCompany => 10

/-- `co2_career` branch of lines 172–175. -/
def co2_career : CareerChoice → ℤ
  | CareerChoice.energyStartup => -10
  | CareerChoice.oilCompany => 5

/-- Python's `round` applied to an `int` returns that `int` unchanged; every
argument `round` receives in the source is a sum of `int` literals, so the
embedding is the identity on `ℤ`. -/
def pyRound (z : ℤ) : ℤ := z

/-- `base_score` literal of line 163. -/
def base_score : ℤ := 50

/-- `base_co2` literal of line 163. -/
def base_co2 : ℤ := 0

/-- `final_score = round(base_score + score_edu + score_activity + score_career)`
(line 176). -/
def final_score (c : QuizChoice) : ℤ :=
  pyRound (base_score + score_edu c.edu + score_activity c.activity +
    score_career c.career)

/-- `final_co2 = round(base_co2 + co2_edu + co2_activity + co2_career)`
(line 178). -/
def final_co2 (c : QuizChoice) : ℤ :=
  pyRound (base_co2 + co2_edu c.edu + co2_activity c.activity +
    co2_career c.career)

/-- The advisory tier shown by the display block of lines 199–204. -/
inductive Tier
  | needsGrowth
  | promising
  | top
deriving DecidableEq, Repr

/-- Numeric rank of a tier, ordered NeedsGrowth < Promising < Top. -/
def tierVal : Tier → ℕ
  | Tier.needsGrowth => 0
  | Tier.promising => 1
  | Tier.top => 2

/-- Tier display block of lines 199–204: `final_score >= 100` is the success
banner, `final_score >= 75` the info banner, anything else the warning. -/
def tier_of (score : ℤ) : Tier :=
  if score ≥ 100 then Tier.top
  else if score ≥ 75 then Tier.promising
  else Tier.needsGrowth

/-- The all-green choice combination. -/
def allGreen : QuizChoice :=
  ⟨EduChoice.carbonAI, ActivityChoice.renewableDebate, CareerChoice.energyStartup⟩

/-- The all-traditional choice combination. -/
def allTraditional : QuizChoice :=
  ⟨EduChoice.combustion, ActivityChoice.classicsClub, CareerChoice.oilCompany⟩

/-- "Switching a single axis to a choice with a higher (or equal) score
contribution, holding the other two axes fixed": `c'` differs from `c` on at
most one axis and that axis's contribution did not decrease. -/
def oneAxisIncrease (c c' : QuizChoice) : Prop :=
  (c'.activity = c.activity ∧ c'.career = c.career ∧
    score_edu c.edu ≤ score_edu c'.edu) ∨
  (c'.edu = c.edu ∧ c'.career = c.career ∧
    score_activity c.activity ≤ score_activity c'.activity) ∨
  (c'.edu = c.edu ∧ c'.activity = c.activity ∧
    score_career c.career ≤ score_career c'.career)

instance (c c' : QuizChoice) : Decidable (oneAxisIncrease c c') := by
  unfold oneAxisIncrease
  infer_instance

/-- **C1 (counterexample).** The spec's worked examples do not match the code:
for the all-green combination the code produces score 110 (not 100) and CO₂
delta −35 (not −45). -/
theorem C1_counterexample :
    final_score allGreen = 110 ∧ ¬ final_score allGreen = 100 ∧
    final_co2 allGreen = -35 ∧ ¬ final_co2 allGreen = -45 := by
  decide

/-- **C1 (amended).** The scoring engine's two extreme combinations: all-green
yields score 110, CO₂ delta −35 and the top tier; all-traditional yields score
70, CO₂ delta 10 and the needs-growth tier. -/
theorem C1_worked_examples :
    final_score allGreen = 110 ∧ final_co2 allGreen = -35 ∧
    tier_of (final_score allGreen) = Tier.top ∧
    final_score allTraditional = 70 ∧ final_co2 allTraditional = 10 ∧
    tier_of (final_score allTraditional) = Tier.needsGrowth := by
  decide

/-- **C2.** For every combination of the three quiz choices, the final score
equals the fixed base 50 plus the sum of the three per-axis contributions
exactly — all contributions are integers, so the single `round` applied to the
total is the identity and no per-axis rounding occurs. -/
theorem C2_score_decomposition (c : QuizChoice) :
    final_score c =
      50 + (score_edu c.edu + score_activity c.activity + score_career c.career) := by
  rcases c with ⟨e, a, k⟩
  rcases e <;> rcases a <;> rcases k <;> decide

/-- **C8.** The score-to-tier mapping is monotonic: switching any single axis
to a choice with a higher (or equal) score contribution, holding the other two
axes fixed, never lowers the tier (NeedsGrowth < Promising < Top). -/
theorem C8_tier_monotone (c c' : QuizChoice) (h : oneAxisIncrease c c') :
    tierVal (tier_of (final_score c)) ≤ tierVal (tier_of (final_score c')) := by
  revert h
  rcases c with ⟨e, a, k⟩
  rcases c' with ⟨e', a', k'⟩
  rcases e <;> rcases a <;> rcases k <;> rcases e' <;> rcases a' <;> rcases k' <;>
    decide

/-- Witness for C8: switching the study axis of the all-traditional combination
to the green option is a one-axis increase and does not lower the tier. -/
theorem C8_tier_monotone_witness :
    oneAxisIncrease allTraditional
      ⟨EduChoice.carbonAI, ActivityChoice.classicsClub, CareerChoice.oilCompany⟩ ∧
    tierVal (tier_of (final_score allTraditional)) ≤
      tierVal (tier_of (final_score
        ⟨EduChoice.carbonAI, ActivityChoice.classicsClub, CareerChoice.oilCompany⟩)) :=
  ⟨by decide, C8_tier_monotone _ _ (by decide)⟩

/-- **C10.** Every reachable final score lies in [70, 110]; the needs-growth
tier is reachable exactly at score 70, which happens exactly for the
all-traditional combination. -/
theorem C10_score_range (c : QuizChoice) :
    70 ≤ final_score c ∧ final_score c ≤ 110 ∧
    (tier_of (final_score c) = Tier.needsGrowth ↔
      (final_score c = 70 ∧ c = allTraditional)) := by
  rcases c with ⟨e, a, k⟩
  rcases e <;> rcases a <;> rcases k <;> decide

/-- Witness for C10 at the all-green combination: score 110 is within the
bounds and its tier is not needs-growth. -/
theorem C10_score_range_witness :
    70 ≤ final_score allGreen ∧ final_score allGreen ≤ 110 ∧
    (tier_of (final_score allGreen) = Tier.needsGrowth ↔
      (final_score allGreen = 70 ∧ allGreen = allTraditional)) :=
  C10_score_range allGreen

/- ### Memo store (streamlit_app.py lines 77–91 and 217–226)

The backing file `memos.json` is embedded as `Option (List MemoRecord)`:
`none` means the file does not exist, `some ms` means it holds the JSON array
`ms`.  `json.dump`/`json.load` are the Python standard library and are taken
to round-trip the stored array. -/

/-- One entry of `memos.json` with keys name / memo / color / timestamp. -/
structure MemoRecord where
  name : String
  memo : String
  color : String
  timestamp : String
deriving DecidableEq, Repr

/-- `load_memos` (lines 80–86): reads the whole file; a missing file
(`FileNotFoundError`) yields the empty list. -/
def load_memos (fs : Option (List MemoRecord)) : List MemoRecord :=
  match fs with
  | none => []
  | some ms => ms

/-- `save_memos` (lines 88–91): rewrites the whole file with the given list. -/
def save_memos (ms : List MemoRecord) (_fs : Option (List MemoRecord)) :
    Option (List MemoRecord) :=
  some ms

/-- Submit-button block of lines 217–226: `if name and memo` — both strings
must be non-empty (Python truthiness) — then load the full list, insert the new
record at the front, and save; otherwise only a warning is shown and the file
is untouched. -/
def submit_memo (name memo color now : String) (fs : Option (List MemoRecord)) :
    Option (List MemoRecord) :=
  if name ≠ "" ∧ memo ≠ "" then
    save_memos (⟨name, memo, color, now⟩ :: load_memos fs) fs
  else fs

/-- **C3.** Submitting a memo with an empty name or an empty message is
rejected: no record is written and the backing file is unchanged, whatever its
prior contents; in particular `submit_memo "" "x" "#fff"` and
`submit_memo "x" "" "#fff"` leave it unchanged. -/
theorem C3_empty_submission_rejected (name memo color now : String)
    (fs : Option (List MemoRecord)) (h : name = "" ∨ memo = "") :
    submit_memo name memo color now fs = fs := by
  rcases h with h | h <;>
    simp [submit_memo, h]

/-- Witness for C3: both spec'd calls leave an example persisted list
unchanged. -/
theorem C3_empty_submission_rejected_witness :
    submit_memo "" "x" "#fff" "2024-01-01" (some [⟨"a", "b", "#fff", "t"⟩]) =
      some [⟨"a", "b", "#fff", "t"⟩] ∧
    submit_memo "x" "" "#fff" "2024-01-01" (some [⟨"a", "b", "#fff", "t"⟩]) =
      some [⟨"a", "b", "#fff", "t"⟩] :=
  ⟨C3_empty_submission_rejected _ _ _ _ _ (Or.inl rfl),
   C3_empty_submission_rejected _ _ _ _ _ (Or.inr rfl)⟩

/-- **C4.** `save_memos` followed immediately by `load_memos` returns exactly
the saved sequence (no concurrent writer is modelled: the state is threaded
explicitly). -/
theorem C4_save_load_roundtrip (ms : List MemoRecord)
    (fs : Option (List MemoRecord)) :
    load_memos (save_memos ms fs) = ms := rfl

/-- **C9.** `load_memos` on a non-existent backing file returns the empty
sequence rather than an error (the embedding is total: the
`FileNotFoundError` handler is the `none` branch). -/
theorem C9_load_missing_file : load_memos none = [] := rfl

/- ### Animation loader (streamlit_app.py lines 65–75)

`load_lottieurl` performs up to three `requests.get` calls.  Each attempt's
outcome is either a raised `requests.exceptions.RequestException` or a
response with a status code and a body (whose parsed JSON we keep as the raw
body string).  The loop returns the body at the first status-200 response;
an exception triggers `time.sleep(1)`; any other status falls through with no
sleep.  The trace of attempts and sleeps is returned alongside the result. -/

/-- Outcome of one `requests.get` call inside `load_lottieurl`. -/
inductive AttemptOutcome
  | exn
  | resp (status : ℕ) (body : String)
deriving DecidableEq, Repr

/-- Observable event of one loop iteration: an HTTP attempt, or a blocking
`time.sleep` of the given number of seconds. -/
inductive LoaderEvent
  | attempt
  | sleepSec (n : ℕ)
deriving DecidableEq, Repr

/-- The `for _ in range(3)` loop body of lines 68–74, over the list of
outcomes the environment holds in store (one per iteration). -/
def lottieLoop : List AttemptOutcome → Option String × List LoaderEvent
  | [] => (none, [])
  | o :: rest =>
    match o with
    | AttemptOutcome.exn =>
      let r := lottieLoop rest
      (r.1, LoaderEvent.attempt :: LoaderEvent.sleepSec 1 :: r.2)
    | AttemptOutcome.resp status body =>
      if status = 200 then (some body, [LoaderEvent.attempt])
      else
        let r := lottieLoop rest
        (r.1, LoaderEvent.attempt :: r.2)

/-- `load_lottieurl` (lines 65–75): three loop iterations, then `return None`. -/
def load_lottieurl (o₁ o₂ o₃ : AttemptOutcome) : Option String × List LoaderEvent :=
  lottieLoop [o₁, o₂, o₃]

/-- Whether an event is an HTTP attempt. -/
def isAttempt : LoaderEvent → Bool
  | LoaderEvent.attempt => true
  | LoaderEvent.sleepSec _ => false

/-- Number of HTTP attempts in a trace. -/
def attemptCount (evs : List LoaderEvent) : ℕ :=
  (evs.filter isAttempt).length

/-- Whether an event is a sleep. -/
def isSleep : LoaderEvent → Bool
  | LoaderEvent.attempt => false
  | LoaderEvent.sleepSec _ => true

/-- Number of sleep events in a trace. -/
def sleepCount (evs : List LoaderEvent) : ℕ :=
  (evs.filter isSleep).length

/-- Reference result: the body of the first status-200 response in the
outcome list, if any. -/
def firstOk : List AttemptOutcome → Option String
  | [] => none
  | AttemptOutcome.exn :: rest => firstOk rest
  | AttemptOutcome.resp status body :: rest =>
    if status = 200 then some body else firstOk rest

/-- Reference sleep count: one sleep per exception outcome, counted up to and
including the first status-200 response (after which the loop has returned). -/
def exnSleeps : List AttemptOutcome → ℕ
  | [] => 0
  | AttemptOutcome.exn :: rest => 1 + exnSleeps rest
  | AttemptOutcome.resp status _ :: rest =>
    if status = 200 then 0 else exnSleeps rest

/-- **C5 (counterexample).** With three non-200 responses, the loader makes
three attempts, all fail, yet no backoff sleep at all separates them — the
fixed ≈1 s wait "between any two failed attempts" claimed by the spec does not
happen for attempts failing with a non-200 status. -/
theorem C5_counterexample :
    (load_lottieurl (AttemptOutcome.resp 404 "a") (AttemptOutcome.resp 404 "b")
        (AttemptOutcome.resp 404 "c")).1 = none ∧
    attemptCount (load_lottieurl (AttemptOutcome.resp 404 "a")
        (AttemptOutcome.resp 404 "b") (AttemptOutcome.resp 404 "c")).2 = 3 ∧
    sleepCount (load_lottieurl (AttemptOutcome.resp 404 "a")
        (AttemptOutcome.resp 404 "b") (AttemptOutcome.resp 404 "c")).2 = 0 := by
  decide

/-- Loop invariant for `lottieLoop`: the result is the first status-200 body,
at most one attempt happens per stored outcome, and exactly the
exception-failed attempts are followed by a 1-second sleep. -/
theorem lottieLoop_spec (os : List AttemptOutcome) :
    (lottieLoop os).1 = firstOk os ∧
    attemptCount (lottieLoop os).2 ≤ os.length ∧
    sleepCount (lottieLoop os).2 = exnSleeps os := by
  induction os with
  | nil =>
    simp [lottieLoop, firstOk, exnSleeps, attemptCount, sleepCount]
  | cons o rest ih =>
    rcases o with _ | ⟨status, body⟩
    · refine ⟨?_, ?_, ?_⟩
      · simpa [lottieLoop, firstOk] using ih.1
      · have h := ih.2.1
        simp only [lottieLoop, attemptCount, List.filter, isAttempt,
          List.length_cons, List.length] at h ⊢
        omega
      · have h := ih.2.2
        simp only [lottieLoop, sleepCount, exnSleeps, List.filter, isSleep,
          List.length_cons, List.length] at h ⊢
        omega
    · by_cases h200 : status = 200
      · subst h200
        refine ⟨?_, ?_, ?_⟩
        · simp [lottieLoop, firstOk]
        · simp [lottieLoop, attemptCount, List.filter, isAttempt]
        · simp [lottieLoop, sleepCount, exnSleeps, List.filter, isSleep]
      · refine ⟨?_, ?_, ?_⟩
        · simpa [lottieLoop, firstOk, h200] using ih.1
        · have h := ih.2.1
          simp only [lottieLoop, attemptCount, List.filter, isAttempt,
            List.length_cons, if_neg h200] at h ⊢
          omega
        · have h := ih.2.2
          simp only [lottieLoop, sleepCount, exnSleeps, List.filter, isSleep,
            if_neg h200] at h ⊢
          omega

/-- **C5 (amended).** The animation loader makes at most 3 sequential
attempts; it returns the parsed body of the first attempt answering HTTP 200
and `None` when no attempt does; a fixed 1-second sleep happens exactly after
each attempt that fails with a request exception (including, when it is the
last one, before returning `None`), while an attempt answering a non-200
status is retried with no backoff at all. -/
theorem C5_loader_amended (o₁ o₂ o₃ : AttemptOutcome) :
    (load_lottieurl o₁ o₂ o₃).1 = firstOk [o₁, o₂, o₃] ∧
    attemptCount (load_lottieurl o₁ o₂ o₃).2 ≤ 3 ∧
    sleepCount (load_lottieurl o₁ o₂ o₃).2 = exnSleeps [o₁, o₂, o₃] := by
  have h := lottieLoop_spec [o₁, o₂, o₃]
  exact ⟨h.1, by simpa using h.2.1, h.2.2⟩

/- ### Employment upload parser (streamlit_app.py lines 34–55)

`pd.read_excel`, column slicing `iloc[:, [0, 1, 3]]` and `pd.to_numeric`
are pandas library calls; the embedding starts from the rows they produce:
each raw row carries the three selected cells after numeric coercion, where
`none` stands for a missing or non-numeric cell (`NaN`).  This merges the
`dropna(subset=["연도"])` step and the `to_numeric(...).notna()` filter into
one test on the year cell.  `astype(int)` truncates toward zero. -/

/-- A raw uploaded row after column selection and numeric coercion:
columns 0 (연도), 1 (취업자 수) and 3 (실업률). -/
structure RawRow where
  yearCell : Option ℚ
  employedCell : Option ℚ
  rateCell : Option ℚ
deriving DecidableEq, Repr

/-- A normalized employment row. -/
structure EmploymentRow where
  year : ℤ
  employed : Option ℚ
  rate : Option ℚ
deriving DecidableEq, Repr

/-- Python `int()` / pandas `astype(int)` truncation toward zero. -/
def truncInt (q : ℚ) : ℤ := Int.tdiv q.num (q.den : ℤ)

/-- `process_uploaded_employment_data` (lines 34–55): `none` input (no file
uploaded) gives the empty table; otherwise drop rows whose year cell is
missing or non-numeric, convert the year to `int`, and keep only rows whose
year is strictly below the current calendar year. -/
def process_uploaded_employment_data (upload : Option (List RawRow))
    (todayYear : ℤ) : List EmploymentRow :=
  match upload with
  | none => []
  | some rows =>
    let kept := rows.filter (fun r => r.yearCell.isSome)
    let typed := kept.filterMap (fun r =>
      match r.yearCell with
      | some q => some (⟨truncInt q, r.employedCell, r.rateCell⟩ : EmploymentRow)
      | none => none)
    typed.filter (fun r => r.year < todayYear)

/-- **C6.** Every row the parser returns has a year strictly below the current
calendar year; in particular, whenever today lies before 2099-01-01 (current
year at most 2098), no returned row carries year 2099. -/
theorem C6_future_rows_excluded (upload : Option (List RawRow))
    (todayYear : ℤ) :
    ((process_uploaded_employment_data upload todayYear).all
      (fun r => decide (r.year < todayYear)) = true) ∧
    (todayYear ≤ 2098 →
      (process_uploaded_employment_data upload todayYear).all
        (fun r => decide (r.year ≠ 2099)) = true) := by
  have hlt : ∀ r ∈ process_uploaded_employment_data upload todayYear,
      r.year < todayYear := by
    intro r hr
    rcases upload with _ | rows
    · simp [process_uploaded_employment_data] at hr
    · simp only [process_uploaded_employment_data, List.mem_filter,
        decide_eq_true_eq] at hr
      exact hr.2
  constructor
  · rw [List.all_eq_true]
    intro r hr
    simpa using hlt r hr
  · intro hle
    rw [List.all_eq_true]
    intro r hr
    have := hlt r hr
    simp only [decide_eq_true_eq]
    omega

/-- Witness for C6: with today in year 2025, an upload holding one valid row
dated 2099 is excluded entirely. -/
theorem C6_future_rows_excluded_witness :
    ((process_uploaded_employment_data
        (some [⟨some 2099, some 2800, some (7 / 2)⟩]) 2025).all
      (fun r => decide (r.year < 2025)) = true) ∧
    ((process_uploaded_employment_data
        (some [⟨some 2099, some 2800, some (7 / 2)⟩]) 2025).all
      (fun r => decide (r.year ≠ 2099)) = true) :=
  ⟨(C6_future_rows_excluded (some [⟨some 2099, some 2800, some (7 / 2)⟩]) 2025).1,
   (C6_future_rows_excluded (some [⟨some 2099, some 2800, some (7 / 2)⟩]) 2025).2
     (by norm_num)⟩

/- ### Climate fetcher (streamlit_app.py lines 17–32)

`fetch_gistemp_csv` wraps its whole body in `try/except` with a bare
`except` returning an empty table.  The outbound `requests.get` and the
`pd.read_csv` of the body are external effects, embedded as an environment:
the network either raises or answers with a status, and the parse of the
response text either fails or yields rows with a year and an optional
`J-D` anomaly value.  Dates are year/month/day triples ordered
lexicographically; the source builds each row's date as `year-12-31` and
keeps rows dated no later than today. -/

/-- A calendar date as year / month / day. -/
structure SimpleDate where
  year : ℤ
  month : ℕ
  day : ℕ
deriving DecidableEq, Repr

/-- Lexicographic date comparison. -/
def dateLe (a b : SimpleDate) : Bool :=
  a.year < b.year ∨ (a.year = b.year ∧
    (a.month < b.month ∨ (a.month = b.month ∧ a.day ≤ b.day)))

/-- Outcome of the `requests.get` call: a raised request exception, or a
response with its status code. -/
inductive NetResult
  | netError
  | ok (status : ℕ)
deriving DecidableEq, Repr

/-- One row of the parsed GISTEMP table after renaming: first column 연도,
and the `J-D` annual aggregate (`none` = NaN). -/
structure GistempRaw where
  year : ℤ
  jd : Option ℚ
deriving DecidableEq, Repr

/-- One normalized climate row `(날짜, 연도, 기온이상)`. -/
structure ClimateRow where
  date : SimpleDate
  year : ℤ
  anomaly : ℚ
deriving DecidableEq, Repr

/-- External world of one `fetch_gistemp_csv` call: the network outcome, the
result of `pd.read_csv` on the response text (an `Except` since parsing or
column selection can fail on a malformed body), and today's date. -/
structure FetchEnv where
  net : NetResult
  parse : Except String (List GistempRaw)
  today : SimpleDate
deriving Repr

/-- The `try` body of lines 21–30: `requests.get` (a raised exception
propagates), `raise_for_status` (4xx/5xx raises), the CSV parse (failure
propagates), then `dropna` on `J-D`, the `year-12-31` date column, and the
`날짜 <= today` filter. -/
def fetch_gistemp_body (env : FetchEnv) : Except String (List ClimateRow) :=
  match env.net with
  | NetResult.netError => Except.error "requests.get raised"
  | NetResult.ok status =>
    if 400 ≤ status then Except.error "raise_for_status"
    else
      match env.parse with
      | Except.error e => Except.error e
      | Except.ok raws =>
        let rows := raws.filterMap (fun r =>
          match r.jd with
          | some a => some (⟨⟨r.year, 12, 31⟩, r.year, a⟩ : ClimateRow)
          | none => none)
        Except.ok (rows.filter (fun r => dateLe r.date env.today))

/-- `fetch_gistemp_csv` (lines 17–32): the bare `except` turns any error of
the body into the empty table. -/
def fetch_gistemp_csv (env : FetchEnv) : List ClimateRow :=
  match fetch_gistemp_body env with
  | Except.error _ => []
  | Except.ok rows => rows

/-- **C7.** Whenever the fetch body fails — network error, bad HTTP status,
or a parse/schema error — `fetch_gistemp_csv` returns the empty sequence; the
embedding is a total function, so no exception escapes to the caller. -/
theorem C7_fetch_error_empty (env : FetchEnv) (e : String)
    (h : fetch_gistemp_body env = Except.error e) :
    fetch_gistemp_csv env = [] := by
  simp [fetch_gistemp_csv, h]

/-- Witness for C7: a simulated network error yields the empty sequence. -/
theorem C7_fetch_error_empty_witness :
    fetch_gistemp_body ⟨NetResult.netError, Except.ok [], ⟨2025, 10, 12⟩⟩ =
      Except.error "requests.get raised" ∧
    fetch_gistemp_csv ⟨NetResult.netError, Except.ok [], ⟨2025, 10, 12⟩⟩ = [] :=
  ⟨rfl, C7_fetch_error_empty _ "requests.get raised" rfl⟩
